import Mathlib

/-!
Synology NAS SNMP health check (`src/src/main.go`)

A shallow embedding of the probe's attribute store, its validators
(`CheckInt`, `CheckMultipleInt`, `GetString`), `resolveDNS`, and `main`,
followed by theorems about them.

Modelling conventions:

* a Go `string` is a Lean `String`; a `[]byte` is identified with the Go string
  holding the same bytes, so `string(b)` is the identity;
* a Go `int` is an `Int` (the program compares and prints integers, and the only
  arithmetic is the loop counter `i++`, bounded by the number of map entries);
* a Go `error` is an `Option String`: `none` is `nil`, `some msg` an error whose
  `Error()` text is `msg`;
* a run-time panic (a failed single-value type assertion) is the outcome
  `Run.panic`;
* a Go map is the list of its entries; `range` over a map visits the entries in
  an order the language leaves unspecified, so the order of every `range` loop
  is an input of the model;
* the network libraries (`gosnmp`, `dns`) are collaborators whose answers are
  inputs of the model.
-/

namespace SynologyCheck

/-! ## Go values -/

/-- Outcome of a Go computation: it returns a value or aborts with a panic. -/
inductive Run (α : Type) where
  | ret (a : α)
  | panic
  deriving DecidableEq, Repr

/-- Go `error`: `none` is the nil error, `some msg` an error with text `msg`. -/
abbrev GoError := Option String

/-- A Go `interface{}` value as stored in `SnmpPDU.Value`: an `int`, a `[]byte`,
or a value of any other dynamic type. -/
inductive GoValue where
  | int (n : Int)
  | bytes (b : String)
  | other
  deriving DecidableEq, Repr

/-- `gosnmp.Asn1BER`: the BER type tag of a PDU, a byte. -/
abbrev Asn1BER := Nat

namespace gosnmp

/-- `gosnmp.Integer`. -/
def Integer : Asn1BER := 0x02

/-- `gosnmp.OctetString`. -/
def OctetString : Asn1BER := 0x04

/-- `gosnmp.NoSuchObject`. -/
def NoSuchObject : Asn1BER := 0x80

/-- `gosnmp.SnmpPDU`: an object identifier with its type tag (the field `Type`,
here `Typ`) and value. -/
structure SnmpPDU where
  Name : String
  Typ : Asn1BER
  Value : GoValue
  deriving DecidableEq, Repr

end gosnmp

open gosnmp (SnmpPDU)

/-! ## Formatting verbs of `fmt` -/

/-- `%d` / `%v` of an `int`. -/
def fmtInt (n : Int) : String := toString n

/-- `%v` of a `[]int`: the elements separated by blanks, in square brackets. -/
def fmtInts (xs : List Int) : String :=
  "[" ++ " ".intercalate (xs.map fmtInt) ++ "]"

/-- `%s` of an `error`: its text, or the bad-verb marker for the nil error. -/
def fmtError : GoError → String
  | none => "%!s(<nil>)"
  | some msg => msg

/-- `strings.HasPrefix(s, p)`. -/
def HasPrefix (s p : String) : Bool := p.data.isPrefixOf s.data

/-- `strings.Join(elems, sep)`. -/
def Join (elems : List String) (sep : String) : String := sep.intercalate elems

/-! ## Constants of `main.go` -/

/-- `statusMap`, lines 20-25. -/
def statusMap : List String := ["OK", "WARN", "CRIT", "UNKNOWN"]

def OIDSystemStatus : String := ".1.3.6.1.4.1.6574.1.1.0"
def OIDPowerStatus : String := ".1.3.6.1.4.1.6574.1.3.0"
def OIDModelName : String := ".1.3.6.1.4.1.6574.1.5.1.0"
def OIDVersion : String := ".1.3.6.1.4.1.6574.1.5.3.0"
def OIDDiskStatuses : String := ".1.3.6.1.4.1.6574.2.1.1.5"
def OIDRaidStatuses : String := ".1.3.6.1.4.1.6574.3.1.1.3"

/-- `max`, lines 36-42. -/
def max (statusA statusB : Int) : Int :=
  if statusA > statusB then statusA else statusB

/-- `containsInt`, lines 53-61. -/
def containsInt : List Int → Int → Bool
  | [], _ => false
  | v :: arr, val => if v = val then true else containsInt arr val

/-! ## The attribute store -/

/-- `ValueMap` (line 63), a `map[string]gosnmp.SnmpPDU`, as the list of its
entries. -/
abbrev ValueMap := List (String × SnmpPDU)

/-- The map index expression `v[oid]` with the comma-ok result. -/
def ValueMap.get : ValueMap → String → Option SnmpPDU
  | [], _ => none
  | (k, val) :: rest, oid => if k = oid then some val else ValueMap.get rest oid

/-- The map assignment `v[oid] = val`: overwrite the entry of `oid`, or add one. -/
def ValueMap.set : ValueMap → String → SnmpPDU → ValueMap
  | [], oid, val => [(oid, val)]
  | (k, old) :: rest, oid, val =>
    if k = oid then (k, val) :: rest else (k, old) :: ValueMap.set rest oid val

/-- The loops `for _, variable := range variables { valueMap[variable.Name] = variable }`
of lines 220-222, 238-240 and 256-258. -/
def ValueMap.setAll (v : ValueMap) (vars : List SnmpPDU) : ValueMap :=
  vars.foldl (fun m pdu => m.set pdu.Name pdu) v

/-- `ValueMap.CheckInt`, lines 65-80. `TypeString` is the library method
`Asn1BER.String`. -/
def ValueMap.CheckInt (TypeString : Asn1BER → String) (v : ValueMap)
    (name oid : String) (expectedValues : List Int) : Run GoError :=
  match v.get oid with
  | none => .ret (some ("No value for '" ++ name ++ "' received"))
  | some val =>
    if val.Typ ≠ gosnmp.Integer then
      .ret (some ("Invalid type for '" ++ name ++ "': received " ++ TypeString val.Typ
        ++ ", expected Integer"))
    else
      match val.Value with
      | .int n =>
        if !containsInt expectedValues n then
          .ret (some ("Invalid value for '" ++ name ++ "': received " ++ fmtInt n
            ++ ", expected one of " ++ fmtInts expectedValues))
        else
          .ret none
      | _ => .panic

/-- The `range` loop of `CheckMultipleInt` (lines 85-103) over the entries still
to visit, with the current value of the counter `i`. -/
def ValueMap.CheckMultipleInt.loop (TypeString : Asn1BER → String)
    (name oidPrefix : String) (expectedValues : List Int) :
    List (String × SnmpPDU) → Nat → Run (Nat × GoError)
  | [], i => .ret (i, none)
  | (oid, val) :: rest, i =>
    if !HasPrefix oid oidPrefix then
      loop TypeString name oidPrefix expectedValues rest i
    else if val.Typ = gosnmp.NoSuchObject then
      loop TypeString name oidPrefix expectedValues rest i
    else if val.Typ ≠ gosnmp.Integer then
      .ret (0, some ("Invalid type for '" ++ name ++ " " ++ toString i ++ "': received "
        ++ TypeString val.Typ ++ ", expected Integer"))
    else
      match val.Value with
      | .int n =>
        if !containsInt expectedValues n then
          .ret (0, some ("Invalid value for '" ++ name ++ " " ++ toString i
            ++ "': received " ++ fmtInt n ++ ", expected one of " ++ fmtInts expectedValues))
        else
          loop TypeString name oidPrefix expectedValues rest (i + 1)
      | _ => .panic

/-- `ValueMap.CheckMultipleInt`, lines 82-106. The list `v` gives the entries of
the map in the order in which this call's `range` visits them. -/
def ValueMap.CheckMultipleInt (TypeString : Asn1BER → String) (v : ValueMap)
    (name oidPrefix : String) (expectedValues : List Int) : Run (Nat × GoError) :=
  ValueMap.CheckMultipleInt.loop TypeString name oidPrefix expectedValues v 0

/-- `ValueMap.GetString`, lines 108-119. -/
def ValueMap.GetString (v : ValueMap) (name : String) : Run String :=
  match v.get name with
  | none => .ret ""
  | some val =>
    if val.Typ ≠ gosnmp.OctetString then
      .ret ""
    else
      match val.Value with
      | .bytes b => .ret b
      | _ => .panic

/-! ## Name resolution -/

namespace dns

/-- `dns.RR`: a resource record of an answer section. It is an `*dns.A` record,
given by the text `A.String()` of its address, or a record of another type. -/
inductive RR where
  | A (addr : String)
  | other
  deriving DecidableEq, Repr

end dns

/-- `resolveDNS`, lines 121-139. `Exchange question server` is the outcome of
`c.Exchange(&m, *flagDNS)` for the type-A question `question`: the text of the
error, or the answer section `r.Answer`. -/
def resolveDNS (Exchange : String → String → Except String (List dns.RR))
    (flagDNS host : String) : Run (String × GoError) :=
  match Exchange (host ++ ".") flagDNS with
  | .error err =>
    .ret ("", some ("Can't resolve '" ++ host ++ "' on " ++ flagDNS ++ ": " ++ err))
  | .ok answer =>
    match answer with
    | [] => .ret ("", some ("Can't resolve '" ++ host ++ "' on " ++ flagDNS ++ ": No results"))
    | .A addr :: _ => .ret (addr, none)
    | .other :: _ => .panic

/-! ## The program -/

/-- Sequencing of Go computations: a panic aborts what follows. -/
def Run.bind {α β : Type} : Run α → (α → Run β) → Run β
  | .ret a, f => f a
  | .panic, _ => .panic

instance : Monad Run where
  pure := Run.ret
  bind := Run.bind

/-- The slice index expression `xs[i]`: it panics when `i` is out of range. -/
def index (xs : List String) (i : Int) : Run String :=
  if i < 0 then .panic
  else
    match xs[i.toNat]? with
    | some s => .ret s
    | none => .panic

/-- The variables set during the build, lines 14-18. -/
structure Build where
  ProjectName : String
  BuildVersion : String
  BuildDate : String

/-- The command-line flags, lines 44-51, after `flag.Parse()`. -/
structure Flags where
  flagVersion : Bool := false
  flagService : String := ""
  flagHost : String := ""
  flagPort : Int := 161
  flagCommunity : String := "public"
  flagDNS : String := ""

/-- The settings of `gosnmp.Default` made in lines 179-182 (the protocol version
is the constant `Version2c`). -/
structure Session where
  Target : String
  Port : Nat
  Community : String
  deriving DecidableEq, Repr

/-- The collaborators of one run: what the libraries answer, and the order in
which each of the two `range` loops over the map visits its entries. -/
structure Env where
  /-- The method `Asn1BER.String`. -/
  TypeString : Asn1BER → String
  /-- `c.Exchange` for a type-A question sent to a server. -/
  Exchange : String → String → Except String (List dns.RR)
  /-- `gosnmp.Default.Connect()`. -/
  Connect : Session → GoError
  /-- `gosnmp.Default.Get(oids)`: the error text, or `result.Variables`. -/
  Get : Session → List String → Except String (List SnmpPDU)
  /-- `gosnmp.Default.WalkAll(rootOid)`. -/
  WalkAll : Session → String → Except String (List SnmpPDU)
  /-- The visiting order of the disk loop on a map. -/
  RangeDisks : ValueMap → ValueMap
  /-- The visiting order of the raid loop on a map. -/
  RangeRaids : ValueMap → ValueMap

/-- The block `if err != nil { status = max(status, 2); errMsgs = append(errMsgs, err.Error()) }`
that follows each of the four checks (lines 271-274, 284-287, 300-303, 332-335). -/
def main.collect (status : Int) (errMsgs : List String) : GoError → Int × List String
  | some msg => (max status 2, errMsgs ++ [msg])
  | none => (status, errMsgs)

/-- The local variables of `main` after the four checks. -/
structure Checked where
  status : Int
  errMsgs : List String
  countDisks : Nat
  countRaids : Nat
  deriving DecidableEq, Repr

/-- Lines 260-335 of `main`: the four checks and the aggregation of their
outcomes. `rangeDisks` and `rangeRaids` are the entries of `valueMap` in the
order in which the disk loop and the raid loop visit them. -/
def main.checks (TypeString : Asn1BER → String) (valueMap rangeDisks rangeRaids : ValueMap) :
    Run Checked := do
  let status : Int := 0
  let errMsgs : List String := []
  let err ← valueMap.CheckInt TypeString "System Status" OIDSystemStatus [1]
  let (status, errMsgs) := main.collect status errMsgs err
  let err ← valueMap.CheckInt TypeString "Power Status" OIDPowerStatus [1]
  let (status, errMsgs) := main.collect status errMsgs err
  let (countDisks, err) ←
    ValueMap.CheckMultipleInt TypeString rangeDisks "Disk Status" OIDDiskStatuses [1, 2, 3]
  let (status, errMsgs) := main.collect status errMsgs err
  let (countRaids, err) ←
    ValueMap.CheckMultipleInt TypeString rangeRaids "Raid Status" OIDRaidStatuses
      [1, 2, 3, 4, 5, 6, 7, 8, 9, 10, 13, 14, 15, 16, 17, 18, 19, 20]
  let (status, errMsgs) := main.collect status errMsgs err
  return { status := status, errMsgs := errMsgs, countDisks := countDisks,
           countRaids := countRaids }

/-- Lines 337-362 of `main`: the report line printed after the checks. -/
def main.report (serviceName flagHost : String) (valueMap : ValueMap) (c : Checked) :
    Run String := do
  let modelName ← valueMap.GetString OIDModelName
  let version ← valueMap.GetString OIDVersion
  let errMsg := if c.errMsgs.length > 0 then ": " ++ Join c.errMsgs ", " else ""
  let healthStr := if c.status ≠ 0 then "unhealthy" else "healthy"
  let label ← index statusMap c.status
  return fmtInt c.status ++ " " ++ serviceName ++ " - " ++ label ++ " - Synology NAS "
    ++ modelName ++ " (" ++ version ++ ") on " ++ flagHost ++ " is " ++ healthStr ++ " ("
    ++ toString c.countDisks ++ " disks, " ++ toString c.countRaids ++ " raids)" ++ errMsg
    ++ "\n"

/-- The line printed when a transport step fails (lines 166-172, 185-191,
208-214, 226-232, 244-250); `what` is the text between the label and the host. -/
def main.failure (serviceName what flagHost : String) (err : GoError) : Run String := do
  let label ← index statusMap 2
  return "2 " ++ serviceName ++ " - " ++ label ++ " - " ++ what ++ " '" ++ flagHost ++ "': "
    ++ fmtError err ++ "\n"

/-- Lines 158-161 of `main`: the service name, by default `SynologyNAS_<host>`. -/
def Flags.serviceName (flags : Flags) : String :=
  if flags.flagService = "" then "SynologyNAS_" ++ flags.flagHost else flags.flagService

/-- Lines 179-182 of `main`: the target is `*flagHost`, the port `uint16(*flagPort)`. -/
def Flags.session (flags : Flags) : Session :=
  { Target := flags.flagHost, Port := (flags.flagPort % 65536).toNat,
    Community := flags.flagCommunity }

/-- `main`, lines 141-365: the text the run writes to standard output (every
path ends in `os.Exit(0)`), or a panic. -/
def main (build : Build) (flags : Flags) (env : Env) : Run String :=
  if flags.flagVersion then
    .ret (build.ProjectName ++ " " ++ build.BuildVersion ++ " (Build " ++ build.BuildDate
      ++ ")\n" ++ "\n"
      ++ "https://github.com/indece-official/sshmon-check-snmp-synology-nas\n" ++ "\n"
      ++ "Copyright 2020 by indece UG (haftungsbeschränkt)\n")
  else
    let serviceName := flags.serviceName
    if flags.flagDNS ≠ "" then
      match resolveDNS env.Exchange flags.flagDNS flags.flagHost with
      | .panic => .panic
      | .ret (_, err) =>
        main.failure serviceName "Error connecting via SNMP to" flags.flagHost err
    else
      let session := flags.session
      match env.Connect session with
      | some err =>
        main.failure serviceName "Error connecting via SNMP to" flags.flagHost (some err)
      | none =>
        let valueMap : ValueMap := []
        match env.Get session [OIDSystemStatus, OIDPowerStatus, OIDModelName, OIDVersion] with
        | .error err =>
          main.failure serviceName "Error reading System-OIDs via SNMP from" flags.flagHost
            (some err)
        | .ok result =>
          let valueMap := valueMap.setAll result
          match env.WalkAll session OIDDiskStatuses with
          | .error err =>
            main.failure serviceName "Error reading Disk-OIDs via SNMP from" flags.flagHost
              (some err)
          | .ok vars =>
            let valueMap := valueMap.setAll vars
            match env.WalkAll session OIDRaidStatuses with
            | .error err =>
              main.failure serviceName "Error reading Raid-OIDs via SNMP from" flags.flagHost
                (some err)
            | .ok vars =>
              let valueMap := valueMap.setAll vars
              match main.checks env.TypeString valueMap (env.RangeDisks valueMap)
                  (env.RangeRaids valueMap) with
              | .panic => .panic
              | .ret c => main.report serviceName flags.flagHost valueMap c


/-! ## Predicates used in the statements -/

/-- The entries a multi-instance check counts: the id starts with the prefix and
the type tag is not the not-present sentinel. -/
def counted (oidPrefix : String) (e : String × SnmpPDU) : Bool :=
  HasPrefix e.1 oidPrefix && decide (e.2.Typ ≠ gosnmp.NoSuchObject)

/-- An Integer attribute whose value is in the allowed list. -/
def ValidInt (S : List Int) (val : SnmpPDU) : Prop :=
  val.Typ = gosnmp.Integer ∧ ∃ n, val.Value = .int n ∧ n ∈ S

/-- An attribute that is not the sentinel and is not of Integer type or is an
Integer whose value is not in the allowed list. -/
def Invalid (S : List Int) (val : SnmpPDU) : Prop :=
  val.Typ ≠ gosnmp.NoSuchObject ∧
    (val.Typ ≠ gosnmp.Integer ∨ ∃ n, val.Value = .int n ∧ n ∉ S)

/-- The invariant of the PDUs the library decodes: an Integer PDU carries an
`int`, an OctetString PDU a `[]byte`. -/
def WellTyped (val : SnmpPDU) : Prop :=
  (val.Typ = gosnmp.Integer → ∃ n, val.Value = .int n) ∧
    (val.Typ = gosnmp.OctetString → ∃ b, val.Value = .bytes b)

instance decExistsInt (x : GoValue) : Decidable (∃ n, x = .int n) :=
  match x with
  | .int n => isTrue ⟨n, rfl⟩
  | .bytes _ => isFalse (fun h => h.elim (fun _ hn => GoValue.noConfusion hn))
  | .other => isFalse (fun h => h.elim (fun _ hn => GoValue.noConfusion hn))

instance decExistsBytes (x : GoValue) : Decidable (∃ b, x = .bytes b) :=
  match x with
  | .bytes b => isTrue ⟨b, rfl⟩
  | .int _ => isFalse (fun h => h.elim (fun _ hn => GoValue.noConfusion hn))
  | .other => isFalse (fun h => h.elim (fun _ hn => GoValue.noConfusion hn))

instance decExistsIntMem (S : List Int) (x : GoValue) :
    Decidable (∃ n, x = .int n ∧ n ∈ S) :=
  match x with
  | .int n =>
    if h : n ∈ S then isTrue ⟨n, rfl, h⟩
    else isFalse (fun ⟨m, hm, hS⟩ => h (by cases hm; exact hS))
  | .bytes _ => isFalse (fun h => h.elim (fun _ hn => GoValue.noConfusion hn.1))
  | .other => isFalse (fun h => h.elim (fun _ hn => GoValue.noConfusion hn.1))

instance decExistsIntNotMem (S : List Int) (x : GoValue) :
    Decidable (∃ n, x = .int n ∧ n ∉ S) :=
  match x with
  | .int n =>
    if h : n ∈ S then isFalse (fun ⟨m, hm, hS⟩ => hS (by cases hm; exact h))
    else isTrue ⟨n, rfl, h⟩
  | .bytes _ => isFalse (fun h => h.elim (fun _ hn => GoValue.noConfusion hn.1))
  | .other => isFalse (fun h => h.elim (fun _ hn => GoValue.noConfusion hn.1))

instance (S : List Int) (val : SnmpPDU) : Decidable (ValidInt S val) := by
  unfold ValidInt; infer_instance

instance (S : List Int) (val : SnmpPDU) : Decidable (Invalid S val) := by
  unfold Invalid; infer_instance

instance (val : SnmpPDU) : Decidable (WellTyped val) := by
  unfold WellTyped; infer_instance

/-- A store all of whose PDUs are as the library decodes them. -/
def StoreWellTyped (v : ValueMap) : Prop := ∀ e ∈ v, WellTyped e.2

instance (v : ValueMap) : Decidable (StoreWellTyped v) := by
  unfold StoreWellTyped; infer_instance

/-! ## Example data -/

/-- An example of the method `Asn1BER.String`. -/
def exTypeString (t : Asn1BER) : String :=
  if t = gosnmp.Integer then "Integer"
  else if t = gosnmp.OctetString then "OctetString"
  else if t = gosnmp.NoSuchObject then "NoSuchObject"
  else "Asn1BER(" ++ toString t ++ ")"

/-- An Integer PDU. -/
def pduInt (oid : String) (n : Int) : SnmpPDU :=
  { Name := oid, Typ := gosnmp.Integer, Value := .int n }

/-- An OctetString PDU. -/
def pduStr (oid : String) (s : String) : SnmpPDU :=
  { Name := oid, Typ := gosnmp.OctetString, Value := .bytes s }

/-- A not-present sentinel PDU. -/
def pduNone (oid : String) : SnmpPDU :=
  { Name := oid, Typ := gosnmp.NoSuchObject, Value := .other }

/-- Two disks, the first with status 1 (Normal), the second with status 5
(Crashed), in this visiting order. -/
def exDisks : ValueMap :=
  [(OIDDiskStatuses ++ ".0", pduInt (OIDDiskStatuses ++ ".0") 1),
   (OIDDiskStatuses ++ ".1", pduInt (OIDDiskStatuses ++ ".1") 5)]


/-- The build variables of the example runs. -/
def exBuild : Build :=
  { ProjectName := "sshmon-check-snmp-synology-nas", BuildVersion := "1.0.0",
    BuildDate := "2020-01-01" }

/-- The flags `-host 1.2.3.4`, all others at their defaults. -/
def exFlags : Flags := { flagHost := "1.2.3.4" }

/-- The numbered instances of a family: `root.0`, `root.1`, ... with the given
Integer statuses. -/
def exFamily (root : String) (statuses : List Int) : List SnmpPDU :=
  statuses.enum.map (fun (i, s) => pduInt (root ++ "." ++ toString i) s)

/-- A device that answers every request: the given system and power status, the
model "DS918+", the given version PDUs, and the given disk and raid statuses.
The disk loop visits the map in stored order, the raid loop in reverse order.
The name server fails. -/
def exEnv (system power : Int) (version : List SnmpPDU) (disks raids : List Int) : Env where
  TypeString := exTypeString
  Exchange := fun _ _ => .error "i/o timeout"
  Connect := fun _ => none
  Get := fun _ _ =>
    .ok ([pduInt OIDSystemStatus system, pduInt OIDPowerStatus power,
      pduStr OIDModelName "DS918+"] ++ version)
  WalkAll := fun _ root =>
    if root = OIDDiskStatuses then .ok (exFamily OIDDiskStatuses disks)
    else .ok (exFamily OIDRaidStatuses raids)
  RangeDisks := fun m => m
  RangeRaids := fun m => m.reverse

/-- The version PDU of the example scenarios. -/
def exVersion : List SnmpPDU := [pduStr OIDVersion "DSM 6.2"]

/-- The store `main` builds from the answers of `exEnv` (lines 199-258). -/
def exStore (system power : Int) (version : List SnmpPDU) (disks raids : List Int) : ValueMap :=
  ((ValueMap.setAll []
      ([pduInt OIDSystemStatus system, pduInt OIDPowerStatus power,
        pduStr OIDModelName "DS918+"] ++ version)).setAll
    (exFamily OIDDiskStatuses disks)).setAll (exFamily OIDRaidStatuses raids)

/-- Three disk bays, the second reported as not present, and one raid volume. -/
def exBays : ValueMap :=
  [(OIDDiskStatuses ++ ".0", pduInt (OIDDiskStatuses ++ ".0") 1),
   (OIDDiskStatuses ++ ".1", pduNone (OIDDiskStatuses ++ ".1")),
   (OIDDiskStatuses ++ ".2", pduInt (OIDDiskStatuses ++ ".2") 3),
   (OIDRaidStatuses ++ ".0", pduInt (OIDRaidStatuses ++ ".0") 12)]

/-- An entry tagged Integer whose value is not an `int`: the library never
delivers it, and examining it panics. -/
def exIllTyped : String × SnmpPDU :=
  (OIDDiskStatuses ++ ".9",
    { Name := OIDDiskStatuses ++ ".9", Typ := gosnmp.Integer, Value := .other })

/-- The report line as the specification words it:
`<severityCode> <serviceName> - <severityLabel> - Synology NAS <model> (<version>) on <host> is <healthy|unhealthy> (<diskCount> disks, <raidCount> raids)`,
with `healthy` for severity 0, followed, when the message list is not empty, by
`: ` and the messages joined by `, `. -/
def reportLine (severityCode : Int) (serviceName severityLabel model version host : String)
    (diskCount raidCount : Nat) (messages : List String) : String :=
  toString severityCode ++ " " ++ serviceName ++ " - " ++ severityLabel ++ " - Synology NAS "
    ++ model ++ " (" ++ version ++ ") on " ++ host ++ " is "
    ++ (if severityCode = 0 then "healthy" else "unhealthy") ++ " ("
    ++ toString diskCount ++ " disks, " ++ toString raidCount ++ " raids)"
    ++ (if messages = [] then "" else ": " ++ ", ".intercalate messages)

/-- The store `main` builds from the three retrieval results (lines 199-258). -/
def storeOf (result disks raids : List SnmpPDU) : ValueMap :=
  ((ValueMap.setAll [] result).setAll disks).setAll raids

/-- The device of `exEnv` when the SNMP connection is refused. -/
def exEnvRefused : Env :=
  { exEnv 1 1 exVersion [1, 1] [1] with Connect := fun _ => some "connection refused" }

/-- The device of `exEnv` behind a name server that answers the question with
the given records. -/
def exEnvResolved (answer : List dns.RR) : Env :=
  { exEnv 1 1 exVersion [1, 1] [1] with Exchange := fun _ _ => .ok answer }

/-- The flags `-host nas.example.org -dns 8.8.8.8`. -/
def exFlagsDNS : Flags := { flagHost := "nas.example.org", flagDNS := "8.8.8.8" }

set_option maxRecDepth 100000

/-! ## Lemmas -/

theorem containsInt_iff (arr : List Int) (val : Int) :
    containsInt arr val = true ↔ val ∈ arr := by
  induction arr with
  | nil => simp [containsInt]
  | cons v arr ih =>
    by_cases h : v = val
    · simp [containsInt, h]
    · have h2 : ¬ val = v := fun e => h e.symm
      simp [containsInt, h, h2, ih]

theorem loop_skip (TypeString : Asn1BER → String) (name oidPrefix : String) (S : List Int)
    (pre rest : List (String × SnmpPDU)) (i : Nat)
    (hpre : ∀ e ∈ pre, HasPrefix e.1 oidPrefix = true →
      e.2.Typ = gosnmp.NoSuchObject ∨ ValidInt S e.2) :
    ValueMap.CheckMultipleInt.loop TypeString name oidPrefix S (pre ++ rest) i =
      ValueMap.CheckMultipleInt.loop TypeString name oidPrefix S rest
        (i + pre.countP (counted oidPrefix)) := by
  induction pre generalizing i with
  | nil => simp
  | cons e pre ih =>
    obtain ⟨oid, val⟩ := e
    have hrest : ∀ e ∈ pre, HasPrefix e.1 oidPrefix = true →
        e.2.Typ = gosnmp.NoSuchObject ∨ ValidInt S e.2 :=
      fun e he => hpre e (List.mem_cons_of_mem _ he)
    have hhead : HasPrefix oid oidPrefix = true →
        val.Typ = gosnmp.NoSuchObject ∨ ValidInt S val :=
      hpre (oid, val) (List.mem_cons_self _ _)
    simp only [List.cons_append, ValueMap.CheckMultipleInt.loop, List.countP_cons]
    by_cases hp : HasPrefix oid oidPrefix = true
    · rcases hhead hp with hs | ⟨hI, n, hn, hmem⟩
      · simp [hp, hs, counted, ih i hrest]
      · have hc : containsInt S n = true := (containsInt_iff S n).2 hmem
        have harith : i + 1 + pre.countP (counted oidPrefix)
            = i + (pre.countP (counted oidPrefix) + 1) := by omega
        have hIN : gosnmp.Integer ≠ gosnmp.NoSuchObject := by decide
        simp [hp, hIN, hI, hn, hc, counted, ih (i + 1) hrest, harith]
    · have hp2 : HasPrefix oid oidPrefix = false := by simpa using hp
      simp [hp2, counted, ih i hrest]

/-! ## `ValueMap.CheckInt` -/

/-- C1: `CheckInt` is this decision, tested in this order: an absent id gives the
`No value` failure whatever the allowed list is; a present attribute that is not
an Integer gives the `Invalid type` failure naming the label and the type; an
Integer whose value is not in the allowed list gives the `Invalid value` failure
with the label, the value and the list; an Integer whose value is in the list
gives success. It succeeds exactly when the id is present, of Integer type and
its value is in the list. -/
theorem CheckInt_decision (TypeString : Asn1BER → String) (v : ValueMap)
    (label id : String) (S : List Int) :
    (v.get id = none →
      v.CheckInt TypeString label id S =
        .ret (some ("No value for '" ++ label ++ "' received"))) ∧
    (∀ val, v.get id = some val → val.Typ ≠ gosnmp.Integer →
      v.CheckInt TypeString label id S =
        .ret (some ("Invalid type for '" ++ label ++ "': received " ++ TypeString val.Typ
          ++ ", expected Integer"))) ∧
    (∀ val n, v.get id = some val → val.Typ = gosnmp.Integer → val.Value = .int n →
      n ∉ S →
      v.CheckInt TypeString label id S =
        .ret (some ("Invalid value for '" ++ label ++ "': received " ++ fmtInt n
          ++ ", expected one of " ++ fmtInts S))) ∧
    (∀ val n, v.get id = some val → val.Typ = gosnmp.Integer → val.Value = .int n →
      n ∈ S → v.CheckInt TypeString label id S = .ret none) ∧
    (v.CheckInt TypeString label id S = .ret none ↔
      ∃ val n, v.get id = some val ∧ val.Typ = gosnmp.Integer ∧ val.Value = .int n ∧ n ∈ S) ∧
    ValueMap.CheckInt TypeString
        [(OIDSystemStatus, { Name := OIDSystemStatus, Typ := gosnmp.Integer, Value := .int 2 })]
        "System Status" OIDSystemStatus [1] =
      .ret (some "Invalid value for 'System Status': received 2, expected one of [1]") := by
  refine ⟨?_, ?_, ?_, ?_, ?_, ?_⟩
  · intro h
    simp [ValueMap.CheckInt, h]
  · intro val h ht
    simp [ValueMap.CheckInt, h, ht]
  · intro val n h ht hv hn
    have hc : containsInt S n = false := by
      rw [← Bool.not_eq_true, containsInt_iff]; exact hn
    simp [ValueMap.CheckInt, h, ht, hv, hc]
  · intro val n h ht hv hn
    have hc : containsInt S n = true := (containsInt_iff S n).2 hn
    simp [ValueMap.CheckInt, h, ht, hv, hc]
  · constructor
    · intro h
      unfold ValueMap.CheckInt at h
      split at h
      · simp at h
      · rename_i val hget
        split at h
        · simp at h
        · rename_i ht
          split at h
          · rename_i n hv
            split at h
            · simp at h
            · rename_i hc
              refine ⟨val, n, hget, by simpa using ht, hv, ?_⟩
              rw [← containsInt_iff]
              simpa using hc
          · simp at h
    · rintro ⟨val, n, h, ht, hv, hn⟩
      have hc : containsInt S n = true := (containsInt_iff S n).2 hn
      simp [ValueMap.CheckInt, h, ht, hv, hc]
  · rfl

/-- The single remaining case of `CheckInt`: an attribute tagged Integer that
does not carry an `int` makes the type assertion of line 75 panic. -/
theorem CheckInt_panic_iff (TypeString : Asn1BER → String) (v : ValueMap)
    (label id : String) (S : List Int) :
    v.CheckInt TypeString label id S = .panic ↔
      ∃ val, v.get id = some val ∧ val.Typ = gosnmp.Integer ∧ ∀ n, val.Value ≠ .int n := by
  constructor
  · intro h
    unfold ValueMap.CheckInt at h
    split at h
    · simp at h
    · rename_i val hget
      split at h
      · simp at h
      · rename_i ht
        split at h
        · split at h <;> simp at h
        · rename_i hv
          exact ⟨val, hget, by simpa using ht, fun n hn => hv n hn⟩
  · rintro ⟨val, h, ht, hv⟩
    unfold ValueMap.CheckInt
    simp only [h, ht]
    cases hval : val.Value with
    | int n => exact absurd hval (hv n)
    | bytes b => simp
    | other => simp

/-! ## `ValueMap.CheckMultipleInt` -/

theorem loop_nil (TypeString : Asn1BER → String) (name oidPrefix : String) (S : List Int)
    (i : Nat) :
    ValueMap.CheckMultipleInt.loop TypeString name oidPrefix S [] i = .ret (i, none) := by
  simp [ValueMap.CheckMultipleInt.loop]

theorem countP_counted_eq (oidPrefix : String) (v : ValueMap) :
    v.countP (counted oidPrefix) =
      v.countP (fun e => HasPrefix e.1 oidPrefix) -
        v.countP (fun e => HasPrefix e.1 oidPrefix && decide (e.2.Typ = gosnmp.NoSuchObject)) := by
  induction v with
  | nil => simp
  | cons e v ih =>
    have hle : v.countP (fun e => HasPrefix e.1 oidPrefix &&
          decide (e.2.Typ = gosnmp.NoSuchObject)) ≤
        v.countP (fun e => HasPrefix e.1 oidPrefix) := by
      apply List.countP_mono_left
      intro x _ hx
      simp only [Bool.and_eq_true] at hx
      exact hx.1
    simp only [List.countP_cons, ih, counted]
    by_cases hp : HasPrefix e.1 oidPrefix = true <;>
      by_cases hs : e.2.Typ = gosnmp.NoSuchObject <;> simp [hp, hs]
    all_goals omega

/-- C2: when every stored attribute whose id starts with the prefix is the
not-present sentinel or an Integer whose value is in the allowed list, then for
every order `es` in which the entries of the store `v` are enumerated
`CheckMultipleInt` returns success and the number of stored attributes with the
prefix that are not the sentinel, that is the number of attributes with the
prefix minus the number of sentinels among them; attributes without the prefix
do not enter the count. -/
theorem CheckMultipleInt_all_valid (TypeString : Asn1BER → String) (v es : ValueMap)
    (label oidPrefix : String) (S : List Int) (horder : es.Perm v)
    (hvalid : ∀ e ∈ v, HasPrefix e.1 oidPrefix = true →
      e.2.Typ = gosnmp.NoSuchObject ∨ ValidInt S e.2) :
    ValueMap.CheckMultipleInt TypeString es label oidPrefix S =
        .ret (v.countP (counted oidPrefix), none) ∧
      v.countP (counted oidPrefix) =
        v.countP (fun e => HasPrefix e.1 oidPrefix) -
          v.countP (fun e => HasPrefix e.1 oidPrefix &&
            decide (e.2.Typ = gosnmp.NoSuchObject)) ∧
      v.countP (counted oidPrefix) =
        ((v.filter (fun e => HasPrefix e.1 oidPrefix)).filter
          (fun e => decide (e.2.Typ ≠ gosnmp.NoSuchObject))).length := by
  refine ⟨?_, countP_counted_eq oidPrefix v, ?_⟩
  · have hes : ∀ e ∈ es, HasPrefix e.1 oidPrefix = true →
        e.2.Typ = gosnmp.NoSuchObject ∨ ValidInt S e.2 :=
      fun e he => hvalid e (horder.mem_iff.1 he)
    have h := loop_skip TypeString label oidPrefix S es [] 0 hes
    rw [List.append_nil, loop_nil] at h
    unfold ValueMap.CheckMultipleInt
    rw [h, Nat.zero_add, horder.countP_eq]
  · rw [List.filter_filter, List.countP_eq_length_filter]
    congr 1
    apply List.filter_congr
    intro x _
    simp [counted, Bool.and_comm]

theorem loop_failure_count (TypeString : Asn1BER → String) (name oidPrefix : String)
    (S : List Int) (es : List (String × SnmpPDU)) (i k : Nat) (msg : String)
    (h : ValueMap.CheckMultipleInt.loop TypeString name oidPrefix S es i = .ret (k, some msg)) :
    k = 0 ∧ ∃ e ∈ es, HasPrefix e.1 oidPrefix = true ∧ Invalid S e.2 := by
  induction es generalizing i with
  | nil => simp [ValueMap.CheckMultipleInt.loop] at h
  | cons e es ih =>
    obtain ⟨oid, val⟩ := e
    unfold ValueMap.CheckMultipleInt.loop at h
    have lift : (k = 0 ∧ ∃ e ∈ es, HasPrefix e.1 oidPrefix = true ∧ Invalid S e.2) →
        k = 0 ∧ ∃ e ∈ (oid, val) :: es, HasPrefix e.1 oidPrefix = true ∧ Invalid S e.2 :=
      fun ⟨h0, e, he, hx⟩ => ⟨h0, e, List.mem_cons_of_mem _ he, hx⟩
    split at h
    · exact lift (ih i h)
    · rename_i hp
      have hp1 : HasPrefix oid oidPrefix = true := by simpa using hp
      split at h
      · exact lift (ih i h)
      · rename_i hs
        split at h
        · rename_i ht
          simp only [Run.ret.injEq, Prod.mk.injEq] at h
          exact ⟨h.1.symm, (oid, val), List.mem_cons_self _ _, hp1, hs, Or.inl ht⟩
        · split at h
          · rename_i n hv
            split at h
            · rename_i hc
              simp only [Run.ret.injEq, Prod.mk.injEq] at h
              refine ⟨h.1.symm, (oid, val), List.mem_cons_self _ _, hp1, hs,
                Or.inr ⟨n, hv, ?_⟩⟩
              rw [← containsInt_iff]
              simpa using hc
            · exact lift (ih (i + 1) h)
          · simp at h

theorem loop_first_invalid (TypeString : Asn1BER → String) (name oidPrefix : String)
    (S : List Int) (pre post : List (String × SnmpPDU)) (bad : String × SnmpPDU) (i : Nat)
    (hpre : ∀ e ∈ pre, HasPrefix e.1 oidPrefix = true →
      e.2.Typ = gosnmp.NoSuchObject ∨ ValidInt S e.2)
    (hp : HasPrefix bad.1 oidPrefix = true) (hs : bad.2.Typ ≠ gosnmp.NoSuchObject) :
    (bad.2.Typ ≠ gosnmp.Integer →
      ValueMap.CheckMultipleInt.loop TypeString name oidPrefix S (pre ++ bad :: post) i =
        .ret (0, some ("Invalid type for '" ++ name ++ " "
          ++ toString (i + pre.countP (counted oidPrefix)) ++ "': received "
          ++ TypeString bad.2.Typ ++ ", expected Integer"))) ∧
    (∀ n, bad.2.Typ = gosnmp.Integer → bad.2.Value = .int n → n ∉ S →
      ValueMap.CheckMultipleInt.loop TypeString name oidPrefix S (pre ++ bad :: post) i =
        .ret (0, some ("Invalid value for '" ++ name ++ " "
          ++ toString (i + pre.countP (counted oidPrefix)) ++ "': received " ++ fmtInt n
          ++ ", expected one of " ++ fmtInts S))) := by
  obtain ⟨oid, val⟩ := bad
  rw [loop_skip TypeString name oidPrefix S pre _ i hpre]
  constructor
  · intro ht
    have hs1 : ¬ val.Typ = gosnmp.NoSuchObject := hs
    have ht1 : ¬ val.Typ = gosnmp.Integer := ht
    have hp1 : HasPrefix oid oidPrefix = true := hp
    simp [ValueMap.CheckMultipleInt.loop, hp1, hs1, ht1]
  · intro n ht hv hn
    have hc : containsInt S n = false := by
      rw [← Bool.not_eq_true, containsInt_iff]; exact hn
    have hIN : gosnmp.Integer ≠ gosnmp.NoSuchObject := by decide
    have hp1 : HasPrefix oid oidPrefix = true := hp
    have ht1 : val.Typ = gosnmp.Integer := ht
    have hv1 : val.Value = .int n := hv
    simp [ValueMap.CheckMultipleInt.loop, hp1, ht1, hIN, hv1, hc]

/-- Every list of entries on which some prefixed entry is invalid splits at the
first such entry, provided the prefixed Integer entries carry an `int`. -/
theorem exists_first_invalid (oidPrefix : String) (S : List Int)
    (es : List (String × SnmpPDU))
    (hw : ∀ e ∈ es, HasPrefix e.1 oidPrefix = true → e.2.Typ = gosnmp.Integer →
      ∃ n, e.2.Value = .int n)
    (h : ∃ e ∈ es, HasPrefix e.1 oidPrefix = true ∧ Invalid S e.2) :
    ∃ pre bad post, es = pre ++ bad :: post ∧
      (∀ e ∈ pre, HasPrefix e.1 oidPrefix = true →
        e.2.Typ = gosnmp.NoSuchObject ∨ ValidInt S e.2) ∧
      HasPrefix bad.1 oidPrefix = true ∧ Invalid S bad.2 := by
  induction es with
  | nil => simp at h
  | cons a es ih =>
    by_cases ha : HasPrefix a.1 oidPrefix = true ∧ Invalid S a.2
    · exact ⟨[], a, es, rfl, by simp, ha.1, ha.2⟩
    · have h2 : ∃ e ∈ es, HasPrefix e.1 oidPrefix = true ∧ Invalid S e.2 := by
        obtain ⟨e, he, hx⟩ := h
        rcases List.mem_cons.1 he with rfl | he2
        · exact absurd hx ha
        · exact ⟨e, he2, hx⟩
      obtain ⟨pre, bad, post, hes, hpre, hb⟩ :=
        ih (fun e he => hw e (List.mem_cons_of_mem _ he)) h2
      refine ⟨a :: pre, bad, post, by simp [hes], ?_, hb⟩
      intro e he hp
      rcases List.mem_cons.1 he with rfl | he2
      · by_cases hs : e.2.Typ = gosnmp.NoSuchObject
        · exact Or.inl hs
        · right
          by_cases ht : e.2.Typ = gosnmp.Integer
          · obtain ⟨n, hn⟩ := hw e (List.mem_cons_self _ _) hp ht
            refine ⟨ht, n, hn, ?_⟩
            by_contra hmem
            exact ha ⟨hp, hs, Or.inr ⟨n, hn, hmem⟩⟩
          · exact absurd ⟨hp, hs, Or.inl ht⟩ ha
      · exact hpre e he2 hp

/-- C4: provided the prefixed Integer attributes carry an `int` (as the library
decodes them), for every enumeration `es` of the store `CheckMultipleInt` fails
exactly when some stored attribute with the prefix is not the sentinel and is
not an Integer or is an Integer whose value is not in the allowed list. The
failure is the one of the first such attribute `bad` of the enumeration: the
`Invalid type` message when it is not an Integer, the `Invalid value` message
otherwise, with the zero-based index equal to the number of prefixed non-sentinel
attributes enumerated before `bad`; the entries after `bad` do not matter. -/
theorem CheckMultipleInt_fails_iff (TypeString : Asn1BER → String) (es : ValueMap)
    (label oidPrefix : String) (S : List Int)
    (hw : ∀ e ∈ es, HasPrefix e.1 oidPrefix = true → e.2.Typ = gosnmp.Integer →
      ∃ n, e.2.Value = .int n) :
    ((∃ k msg, ValueMap.CheckMultipleInt TypeString es label oidPrefix S = .ret (k, some msg)) ↔
      ∃ e ∈ es, HasPrefix e.1 oidPrefix = true ∧ Invalid S e.2) ∧
    (∀ pre bad post, es = pre ++ bad :: post →
      (∀ e ∈ pre, ¬ (HasPrefix e.1 oidPrefix = true ∧ Invalid S e.2)) →
      HasPrefix bad.1 oidPrefix = true → Invalid S bad.2 →
      (bad.2.Typ ≠ gosnmp.Integer →
        ∀ post2, ∃ k,
          ValueMap.CheckMultipleInt TypeString (pre ++ bad :: post2) label oidPrefix S =
            .ret (k, some ("Invalid type for '" ++ label ++ " "
              ++ toString (pre.countP (counted oidPrefix)) ++ "': received "
              ++ TypeString bad.2.Typ ++ ", expected Integer"))) ∧
      (∀ n, bad.2.Typ = gosnmp.Integer → bad.2.Value = .int n →
        ∀ post2, ∃ k,
          ValueMap.CheckMultipleInt TypeString (pre ++ bad :: post2) label oidPrefix S =
            .ret (k, some ("Invalid value for '" ++ label ++ " "
              ++ toString (pre.countP (counted oidPrefix)) ++ "': received " ++ fmtInt n
              ++ ", expected one of " ++ fmtInts S)))) := by
  constructor
  · constructor
    · rintro ⟨k, msg, h⟩
      exact (loop_failure_count TypeString label oidPrefix S es 0 k msg h).2
    · intro h
      obtain ⟨pre, bad, post, hes, hpre, hp, hs, hbad⟩ :=
        exists_first_invalid oidPrefix S es hw h
      have hl := loop_first_invalid TypeString label oidPrefix S pre post bad 0 hpre hp hs
      unfold ValueMap.CheckMultipleInt
      rw [hes]
      rcases hbad with ht | ⟨n, hv, hn⟩
      · exact ⟨0, _, hl.1 ht⟩
      · by_cases ht : bad.2.Typ = gosnmp.Integer
        · exact ⟨0, _, hl.2 n ht hv hn⟩
        · exact ⟨0, _, hl.1 ht⟩
  · intro pre bad post hes hpre hp hbad
    have hpre2 : ∀ e ∈ pre, HasPrefix e.1 oidPrefix = true →
        e.2.Typ = gosnmp.NoSuchObject ∨ ValidInt S e.2 := by
      intro e he hpe
      have hmem : e ∈ es := by rw [hes]; exact List.mem_append_left _ he
      by_cases hs : e.2.Typ = gosnmp.NoSuchObject
      · exact Or.inl hs
      · right
        by_cases ht : e.2.Typ = gosnmp.Integer
        · obtain ⟨n, hn⟩ := hw e hmem hpe ht
          refine ⟨ht, n, hn, ?_⟩
          by_contra hmemS
          exact hpre e he ⟨hpe, hs, Or.inr ⟨n, hn, hmemS⟩⟩
        · exact absurd ⟨hpe, hs, Or.inl ht⟩ (hpre e he)
    constructor
    · intro ht post2
      have hl := loop_first_invalid TypeString label oidPrefix S pre post2 bad 0 hpre2 hp hbad.1
      refine ⟨0, ?_⟩
      unfold ValueMap.CheckMultipleInt
      rw [hl.1 ht, Nat.zero_add]
    · intro n ht hv post2
      have hn : n ∉ S := by
        rcases hbad.2 with h1 | ⟨m, hm, hmS⟩
        · exact absurd ht h1
        · rw [hv] at hm
          cases hm
          exact hmS
      have hl := loop_first_invalid TypeString label oidPrefix S pre post2 bad 0 hpre2 hp hbad.1
      refine ⟨0, ?_⟩
      unfold ValueMap.CheckMultipleInt
      rw [hl.2 n ht hv hn, Nat.zero_add]

/-! ## Totality on the stores the library delivers -/

theorem get_mem (v : ValueMap) (oid : String) (val : SnmpPDU) (h : v.get oid = some val) :
    (oid, val) ∈ v := by
  induction v with
  | nil => simp [ValueMap.get] at h
  | cons e v ih =>
    obtain ⟨k, old⟩ := e
    unfold ValueMap.get at h
    split at h
    · rename_i hk
      cases h
      rw [hk]
      exact List.mem_cons_self _ _
    · exact List.mem_cons_of_mem _ (ih h)

theorem CheckInt_returns (TypeString : Asn1BER → String) (v : ValueMap) (label id : String)
    (S : List Int) (hw : StoreWellTyped v) :
    ∃ err, v.CheckInt TypeString label id S = .ret err := by
  unfold ValueMap.CheckInt
  cases hget : v.get id with
  | none => exact ⟨_, rfl⟩
  | some val =>
    by_cases ht : val.Typ = gosnmp.Integer
    · obtain ⟨n, hn⟩ := (hw _ (get_mem v id val hget)).1 ht
      have hn1 : val.Value = .int n := hn
      by_cases hc : containsInt S n = true
      · exact ⟨none, by simp [ht, hn1, hc]⟩
      · exact ⟨_, by simp [ht, hn1, hc]; rfl⟩
    · exact ⟨_, by simp [ht]; rfl⟩

theorem loop_returns (TypeString : Asn1BER → String) (name oidPrefix : String) (S : List Int)
    (es : List (String × SnmpPDU)) (hw : StoreWellTyped es) (i : Nat) :
    ∃ k err, ValueMap.CheckMultipleInt.loop TypeString name oidPrefix S es i = .ret (k, err) := by
  induction es generalizing i with
  | nil => exact ⟨i, none, by simp [ValueMap.CheckMultipleInt.loop]⟩
  | cons e es ih =>
    obtain ⟨oid, val⟩ := e
    have hw2 : StoreWellTyped es := fun e he => hw e (List.mem_cons_of_mem _ he)
    unfold ValueMap.CheckMultipleInt.loop
    split
    · exact ih hw2 i
    · split
      · exact ih hw2 i
      · split
        · exact ⟨0, _, rfl⟩
        · rename_i ht
          have ht1 : val.Typ = gosnmp.Integer := by simpa using ht
          obtain ⟨n, hn⟩ := (hw (oid, val) (List.mem_cons_self _ _)).1 ht1
          have hn1 : val.Value = .int n := hn
          simp only [hn1]
          split
          · exact ⟨0, _, rfl⟩
          · exact ih hw2 (i + 1)

theorem CheckMultipleInt_returns (TypeString : Asn1BER → String) (es : ValueMap)
    (name oidPrefix : String) (S : List Int) (hw : StoreWellTyped es) :
    ∃ k err, ValueMap.CheckMultipleInt TypeString es name oidPrefix S = .ret (k, err) :=
  loop_returns TypeString name oidPrefix S es hw 0

theorem GetString_returns (v : ValueMap) (name : String) (hw : StoreWellTyped v) :
    ∃ s, v.GetString name = .ret s := by
  unfold ValueMap.GetString
  cases hget : v.get name with
  | none => exact ⟨_, rfl⟩
  | some val =>
    by_cases ht : val.Typ = gosnmp.OctetString
    · obtain ⟨b, hb⟩ := (hw _ (get_mem v name val hget)).2 ht
      have hb1 : val.Value = .bytes b := hb
      exact ⟨b, by simp [ht, hb1]⟩
    · exact ⟨_, by simp [ht]; rfl⟩

theorem wellTyped_of_perm (v es : ValueMap) (h : es.Perm v) (hw : StoreWellTyped v) :
    StoreWellTyped es :=
  fun e he => hw e (h.mem_iff.1 he)

/-! ## The aggregation in `main` -/

theorem bind_ret {α β : Type} (a : α) (f : α → Run β) : (Run.ret a >>= f) = f a := rfl

theorem bind_panic {α β : Type} (f : α → Run β) : (Run.panic >>= f) = Run.panic := rfl

theorem pure_eq_ret {α : Type} (a : α) : (pure a : Run α) = Run.ret a := rfl

/-- The aggregation of four outcomes, as `main.checks` computes it. -/
theorem checks_eq (TypeString : Asn1BER → String) (valueMap rangeDisks rangeRaids : ValueMap)
    (e1 e2 e3 e4 : GoError) (kd kr : Nat)
    (h1 : valueMap.CheckInt TypeString "System Status" OIDSystemStatus [1] = .ret e1)
    (h2 : valueMap.CheckInt TypeString "Power Status" OIDPowerStatus [1] = .ret e2)
    (h3 : ValueMap.CheckMultipleInt TypeString rangeDisks "Disk Status" OIDDiskStatuses
      [1, 2, 3] = .ret (kd, e3))
    (h4 : ValueMap.CheckMultipleInt TypeString rangeRaids "Raid Status" OIDRaidStatuses
      [1, 2, 3, 4, 5, 6, 7, 8, 9, 10, 13, 14, 15, 16, 17, 18, 19, 20] = .ret (kr, e4)) :
    main.checks TypeString valueMap rangeDisks rangeRaids =
      .ret { status := if e1 = none ∧ e2 = none ∧ e3 = none ∧ e4 = none then 0 else 2,
             errMsgs := [e1, e2, e3, e4].reduceOption,
             countDisks := kd, countRaids := kr } := by
  unfold main.checks
  simp only [h1, h2, h3, h4, bind_ret, pure_eq_ret]
  cases e1 <;> cases e2 <;> cases e3 <;> cases e4 <;>
    simp [main.collect, max, List.reduceOption]

/-- On a well-typed store, enumerated in any two orders, the four checks return
and `main.checks` aggregates them. -/
theorem checks_total (TypeString : Asn1BER → String) (valueMap rangeDisks rangeRaids : ValueMap)
    (hw : StoreWellTyped valueMap) (hd : rangeDisks.Perm valueMap)
    (hr : rangeRaids.Perm valueMap) :
    ∃ e1 e2 e3 e4 kd kr,
      valueMap.CheckInt TypeString "System Status" OIDSystemStatus [1] = .ret e1 ∧
      valueMap.CheckInt TypeString "Power Status" OIDPowerStatus [1] = .ret e2 ∧
      ValueMap.CheckMultipleInt TypeString rangeDisks "Disk Status" OIDDiskStatuses
        [1, 2, 3] = .ret (kd, e3) ∧
      ValueMap.CheckMultipleInt TypeString rangeRaids "Raid Status" OIDRaidStatuses
        [1, 2, 3, 4, 5, 6, 7, 8, 9, 10, 13, 14, 15, 16, 17, 18, 19, 20] = .ret (kr, e4) ∧
      main.checks TypeString valueMap rangeDisks rangeRaids =
        .ret { status := if e1 = none ∧ e2 = none ∧ e3 = none ∧ e4 = none then 0 else 2,
               errMsgs := [e1, e2, e3, e4].reduceOption,
               countDisks := kd, countRaids := kr } := by
  obtain ⟨e1, h1⟩ := CheckInt_returns TypeString valueMap "System Status" OIDSystemStatus [1] hw
  obtain ⟨e2, h2⟩ := CheckInt_returns TypeString valueMap "Power Status" OIDPowerStatus [1] hw
  obtain ⟨kd, e3, h3⟩ := CheckMultipleInt_returns TypeString rangeDisks "Disk Status"
    OIDDiskStatuses [1, 2, 3] (wellTyped_of_perm _ _ hd hw)
  obtain ⟨kr, e4, h4⟩ := CheckMultipleInt_returns TypeString rangeRaids "Raid Status"
    OIDRaidStatuses [1, 2, 3, 4, 5, 6, 7, 8, 9, 10, 13, 14, 15, 16, 17, 18, 19, 20]
    (wellTyped_of_perm _ _ hr hw)
  exact ⟨e1, e2, e3, e4, kd, kr, h1, h2, h3, h4,
    checks_eq TypeString valueMap rangeDisks rangeRaids e1 e2 e3 e4 kd kr h1 h2 h3 h4⟩

theorem index_statusMap (e1 e2 e3 e4 : GoError) :
    index statusMap (if e1 = none ∧ e2 = none ∧ e3 = none ∧ e4 = none then 0 else 2) =
      .ret (if e1 = none ∧ e2 = none ∧ e3 = none ∧ e4 = none then "OK" else "CRIT") := by
  by_cases h : e1 = none ∧ e2 = none ∧ e3 = none ∧ e4 = none
  · rw [if_pos h, if_pos h]; rfl
  · rw [if_neg h, if_neg h]; rfl

/-- The report line in terms of the values `main.report` reads. -/
theorem report_eq (serviceName flagHost : String) (valueMap : ValueMap) (c : Checked)
    (modelName version label : String)
    (hm : valueMap.GetString OIDModelName = .ret modelName)
    (hv : valueMap.GetString OIDVersion = .ret version)
    (hl : index statusMap c.status = .ret label) :
    main.report serviceName flagHost valueMap c =
      .ret (fmtInt c.status ++ " " ++ serviceName ++ " - " ++ label ++ " - Synology NAS "
        ++ modelName ++ " (" ++ version ++ ") on " ++ flagHost ++ " is "
        ++ (if c.status = 0 then "healthy" else "unhealthy") ++ " ("
        ++ toString c.countDisks ++ " disks, " ++ toString c.countRaids ++ " raids)"
        ++ (if c.errMsgs = [] then "" else ": " ++ ", ".intercalate c.errMsgs) ++ "\n") := by
  unfold main.report
  simp only [hm, hv, hl, bind_ret, pure_eq_ret, Join]
  have h1 : (if c.status ≠ 0 then "unhealthy" else "healthy")
      = (if c.status = 0 then "healthy" else "unhealthy") := by
    by_cases h : c.status = 0 <;> simp [h]
  have h2 : (if c.errMsgs.length > 0 then ": " ++ ", ".intercalate c.errMsgs else "")
      = (if c.errMsgs = [] then "" else ": " ++ ", ".intercalate c.errMsgs) := by
    cases c.errMsgs <;> simp
  rw [h1, h2]

/-! ## Claims about the aggregation -/

/-- C3 (as amended): when `CheckMultipleInt` fails, the count it returns with
the failure is 0, whatever number of instances it validated before the failing
one; the counts `countDisks` and `countRaids` of `main` are the counts the two
calls return, with or without a failure, and they are the counts shown in the
report line, so a failed disk check reports 0 disks. -/
theorem failure_count_is_zero (TypeString : Asn1BER → String)
    (valueMap rangeDisks rangeRaids : ValueMap) (hw : StoreWellTyped valueMap)
    (hd : rangeDisks.Perm valueMap) (hr : rangeRaids.Perm valueMap) :
    (∀ (es : ValueMap) (label oidPrefix : String) (S : List Int) (k : Nat) (msg : String),
      ValueMap.CheckMultipleInt TypeString es label oidPrefix S = .ret (k, some msg) → k = 0) ∧
    ∃ c kd eD kr eR,
      ValueMap.CheckMultipleInt TypeString rangeDisks "Disk Status" OIDDiskStatuses
        [1, 2, 3] = .ret (kd, eD) ∧
      ValueMap.CheckMultipleInt TypeString rangeRaids "Raid Status" OIDRaidStatuses
        [1, 2, 3, 4, 5, 6, 7, 8, 9, 10, 13, 14, 15, 16, 17, 18, 19, 20] = .ret (kr, eR) ∧
      main.checks TypeString valueMap rangeDisks rangeRaids = .ret c ∧
      c.countDisks = kd ∧ c.countRaids = kr ∧
      (eD ≠ none → c.countDisks = 0) ∧ (eR ≠ none → c.countRaids = 0) ∧
      ∀ serviceName flagHost, ∃ front back,
        main.report serviceName flagHost valueMap c =
          .ret (front ++ " (" ++ toString kd ++ " disks, " ++ toString kr ++ " raids)"
            ++ back) := by
  constructor
  · intro es label oidPrefix S k msg h
    exact (loop_failure_count TypeString label oidPrefix S es 0 k msg h).1
  · obtain ⟨e1, e2, e3, e4, kd, kr, h1, h2, h3, h4, hc⟩ :=
      checks_total TypeString valueMap rangeDisks rangeRaids hw hd hr
    refine ⟨_, kd, e3, kr, e4, h3, h4, hc, rfl, rfl, ?_, ?_, ?_⟩
    · intro hne
      cases e3 with
      | none => exact absurd rfl hne
      | some msg =>
        exact (loop_failure_count TypeString _ _ _ rangeDisks 0 kd msg h3).1
    · intro hne
      cases e4 with
      | none => exact absurd rfl hne
      | some msg =>
        exact (loop_failure_count TypeString _ _ _ rangeRaids 0 kr msg h4).1
    · intro serviceName flagHost
      obtain ⟨m, hm⟩ := GetString_returns valueMap OIDModelName hw
      obtain ⟨v, hv⟩ := GetString_returns valueMap OIDVersion hw
      rw [report_eq serviceName flagHost valueMap _ m v _ hm hv (index_statusMap e1 e2 e3 e4)]
      exact ⟨_, _, congrArg Run.ret (String.append_assoc _ _ "\n")⟩

/-- C5: on every store the library can deliver, enumerated in any orders by the
two loops, the four checks return and the severity `main` computes, the fold of
`max` over the checks in the order system status, power status, disk statuses,
raid statuses starting from 0, is 0 exactly when all four checks succeed and is
2 otherwise; it is never 1 or 3, and `statusMap[status]` is in bounds: it is the
label OK or CRIT. -/
theorem severity_ok_iff_all_succeed (TypeString : Asn1BER → String)
    (valueMap rangeDisks rangeRaids : ValueMap) (hw : StoreWellTyped valueMap)
    (hd : rangeDisks.Perm valueMap) (hr : rangeRaids.Perm valueMap) :
    ∃ c e1 e2 e3 e4 kd kr,
      valueMap.CheckInt TypeString "System Status" OIDSystemStatus [1] = .ret e1 ∧
      valueMap.CheckInt TypeString "Power Status" OIDPowerStatus [1] = .ret e2 ∧
      ValueMap.CheckMultipleInt TypeString rangeDisks "Disk Status" OIDDiskStatuses
        [1, 2, 3] = .ret (kd, e3) ∧
      ValueMap.CheckMultipleInt TypeString rangeRaids "Raid Status" OIDRaidStatuses
        [1, 2, 3, 4, 5, 6, 7, 8, 9, 10, 13, 14, 15, 16, 17, 18, 19, 20] = .ret (kr, e4) ∧
      main.checks TypeString valueMap rangeDisks rangeRaids = .ret c ∧
      (c.status = 0 ↔ e1 = none ∧ e2 = none ∧ e3 = none ∧ e4 = none) ∧
      (c.status ≠ 0 → c.status = 2) ∧ c.status ≠ 1 ∧ c.status ≠ 3 ∧
      c.status = [e1, e2, e3, e4].foldl (fun s e => if e = none then s else max s 2) 0 ∧
      index statusMap c.status = .ret (if c.status = 0 then "OK" else "CRIT") := by
  obtain ⟨e1, e2, e3, e4, kd, kr, h1, h2, h3, h4, hc⟩ :=
    checks_total TypeString valueMap rangeDisks rangeRaids hw hd hr
  refine ⟨_, e1, e2, e3, e4, kd, kr, h1, h2, h3, h4, hc, ?_⟩
  by_cases h : e1 = none ∧ e2 = none ∧ e3 = none ∧ e4 = none
  · obtain ⟨r1, r2, r3, r4⟩ := h
    subst r1 r2 r3 r4
    simp
    rfl
  · simp only [if_neg h]
    refine ⟨by simp [h], by simp, by decide, by decide, ?_, by rfl⟩
    cases e1 <;> cases e2 <;> cases e3 <;> cases e4 <;> simp [max] at h ⊢

/-- C6: on every store the library can deliver, the message list `main` builds
is the sequence of the failure messages of the four checks (system status, power
status, disk statuses, raid statuses) that failed, in that order: one message
for each failing check, none for a succeeding one, so its length is the number
of failing checks, between 0 and 4. -/
theorem messages_are_failures_in_order (TypeString : Asn1BER → String)
    (valueMap rangeDisks rangeRaids : ValueMap) (hw : StoreWellTyped valueMap)
    (hd : rangeDisks.Perm valueMap) (hr : rangeRaids.Perm valueMap) :
    ∃ c e1 e2 e3 e4 kd kr,
      valueMap.CheckInt TypeString "System Status" OIDSystemStatus [1] = .ret e1 ∧
      valueMap.CheckInt TypeString "Power Status" OIDPowerStatus [1] = .ret e2 ∧
      ValueMap.CheckMultipleInt TypeString rangeDisks "Disk Status" OIDDiskStatuses
        [1, 2, 3] = .ret (kd, e3) ∧
      ValueMap.CheckMultipleInt TypeString rangeRaids "Raid Status" OIDRaidStatuses
        [1, 2, 3, 4, 5, 6, 7, 8, 9, 10, 13, 14, 15, 16, 17, 18, 19, 20] = .ret (kr, e4) ∧
      main.checks TypeString valueMap rangeDisks rangeRaids = .ret c ∧
      c.errMsgs = [e1, e2, e3, e4].filterMap id ∧
      c.errMsgs.length = ([e1, e2, e3, e4].filter Option.isSome).length ∧
      c.errMsgs.length ≤ 4 := by
  obtain ⟨e1, e2, e3, e4, kd, kr, h1, h2, h3, h4, hc⟩ :=
    checks_total TypeString valueMap rangeDisks rangeRaids hw hd hr
  refine ⟨_, e1, e2, e3, e4, kd, kr, h1, h2, h3, h4, hc, rfl, ?_, ?_⟩ <;>
    cases e1 <;> cases e2 <;> cases e3 <;> cases e4 <;> simp [List.reduceOption]

/-! ## The report line -/

theorem set_wellTyped (v : ValueMap) (oid : String) (val : SnmpPDU)
    (hv : StoreWellTyped v) (hval : WellTyped val) : StoreWellTyped (v.set oid val) := by
  induction v with
  | nil =>
    intro e he
    simp only [ValueMap.set, List.mem_singleton] at he
    rw [he]; exact hval
  | cons a v ih =>
    obtain ⟨k, old⟩ := a
    have hv2 : StoreWellTyped v := fun e he => hv e (List.mem_cons_of_mem _ he)
    unfold ValueMap.set
    split
    · intro e he
      rcases List.mem_cons.1 he with rfl | he2
      · exact hval
      · exact hv2 e he2
    · intro e he
      rcases List.mem_cons.1 he with rfl | he2
      · exact hv (k, old) (List.mem_cons_self _ _)
      · exact ih hv2 e he2

theorem setAll_wellTyped (v : ValueMap) (vars : List SnmpPDU)
    (hv : StoreWellTyped v) (hvars : ∀ p ∈ vars, WellTyped p) :
    StoreWellTyped (v.setAll vars) := by
  induction vars generalizing v with
  | nil => exact hv
  | cons p vars ih =>
    unfold ValueMap.setAll
    rw [List.foldl_cons]
    exact ih (v.set p.Name p) (set_wellTyped v p.Name p hv (hvars p (List.mem_cons_self _ _)))
      (fun q hq => hvars q (List.mem_cons_of_mem _ hq))

theorem storeOf_wellTyped (result disks raids : List SnmpPDU)
    (hwt : ∀ p ∈ result ++ disks ++ raids, WellTyped p) :
    StoreWellTyped (storeOf result disks raids) := by
  unfold storeOf
  apply setAll_wellTyped
  · apply setAll_wellTyped
    · apply setAll_wellTyped
      · intro e he; simp at he
      · intro p hp; exact hwt p (by simp [hp])
    · intro p hp; exact hwt p (by simp [hp])
  · intro p hp; exact hwt p (by simp [hp])

/-- After a successful transport phase `main` is the checks followed by the
report, on the store built from the three results. -/
theorem main_eq_checks_report (build : Build) (flags : Flags) (env : Env)
    (result disks raids : List SnmpPDU)
    (hv : flags.flagVersion = false) (hdns : flags.flagDNS = "")
    (hconn : env.Connect flags.session = none)
    (hget : env.Get flags.session [OIDSystemStatus, OIDPowerStatus, OIDModelName, OIDVersion]
      = .ok result)
    (hwd : env.WalkAll flags.session OIDDiskStatuses = .ok disks)
    (hwr : env.WalkAll flags.session OIDRaidStatuses = .ok raids) :
    main build flags env =
      match main.checks env.TypeString (storeOf result disks raids)
          (env.RangeDisks (storeOf result disks raids))
          (env.RangeRaids (storeOf result disks raids)) with
      | .panic => .panic
      | .ret c => main.report flags.serviceName flags.flagHost (storeOf result disks raids) c := by
  unfold main
  simp only [hv, hdns, hconn, hget, hwd, hwr, storeOf]
  simp

/-- C7: for every run that reaches the evaluation (transport succeeded, PDUs as
the library decodes them) `main` prints the line
`<severityCode> <serviceName> - <severityLabel> - Synology NAS <model> (<version>) on <host> is <healthy|unhealthy> (<diskCount> disks, <raidCount> raids)`
followed, exactly when the message list is not empty, by `: ` and the messages
joined by `, `, and a newline. The label is `statusMap[severityCode]`, `healthy`
stands for severity 0, the model and version are read with `GetString`, and the
service name is `SynologyNAS_<host>` when the flag is not given. -/
theorem report_line_format (build : Build) (flags : Flags) (env : Env)
    (result disks raids : List SnmpPDU)
    (hv : flags.flagVersion = false) (hdns : flags.flagDNS = "")
    (hconn : env.Connect flags.session = none)
    (hget : env.Get flags.session [OIDSystemStatus, OIDPowerStatus, OIDModelName, OIDVersion]
      = .ok result)
    (hwd : env.WalkAll flags.session OIDDiskStatuses = .ok disks)
    (hwr : env.WalkAll flags.session OIDRaidStatuses = .ok raids)
    (hwt : ∀ p ∈ result ++ disks ++ raids, WellTyped p)
    (hrd : ∀ m, (env.RangeDisks m).Perm m) (hrr : ∀ m, (env.RangeRaids m).Perm m) :
    ∃ c model version label,
      main.checks env.TypeString (storeOf result disks raids)
        (env.RangeDisks (storeOf result disks raids))
        (env.RangeRaids (storeOf result disks raids)) = .ret c ∧
      (storeOf result disks raids).GetString OIDModelName = .ret model ∧
      (storeOf result disks raids).GetString OIDVersion = .ret version ∧
      0 ≤ c.status ∧ statusMap[c.status.toNat]? = some label ∧
      main build flags env =
        .ret (reportLine c.status
          (if flags.flagService = "" then "SynologyNAS_" ++ flags.flagHost
            else flags.flagService)
          label model version flags.flagHost c.countDisks c.countRaids c.errMsgs ++ "\n") ∧
      (c.errMsgs = [] →
        main build flags env =
          .ret (toString c.status ++ " " ++ flags.serviceName ++ " - " ++ label
            ++ " - Synology NAS " ++ model ++ " (" ++ version ++ ") on " ++ flags.flagHost
            ++ " is " ++ (if c.status = 0 then "healthy" else "unhealthy") ++ " ("
            ++ toString c.countDisks ++ " disks, " ++ toString c.countRaids ++ " raids)"
            ++ "\n")) := by
  have hw := storeOf_wellTyped result disks raids hwt
  obtain ⟨e1, e2, e3, e4, kd, kr, _, _, _, _, hc⟩ :=
    checks_total env.TypeString (storeOf result disks raids) _ _ hw (hrd _) (hrr _)
  obtain ⟨m, hm⟩ := GetString_returns (storeOf result disks raids) OIDModelName hw
  obtain ⟨v, hvs⟩ := GetString_returns (storeOf result disks raids) OIDVersion hw
  have hidx := index_statusMap e1 e2 e3 e4
  have hmain := main_eq_checks_report build flags env result disks raids hv hdns hconn hget
    hwd hwr
  rw [hc] at hmain
  simp only at hmain
  rw [report_eq _ _ _ _ m v _ hm hvs hidx] at hmain
  refine ⟨_, m, v, (if e1 = none ∧ e2 = none ∧ e3 = none ∧ e4 = none then "OK" else "CRIT"),
    hc, hm, hvs, ?_, ?_, ?_, ?_⟩
  · by_cases h : e1 = none ∧ e2 = none ∧ e3 = none ∧ e4 = none <;> simp [h]
  · by_cases h : e1 = none ∧ e2 = none ∧ e3 = none ∧ e4 = none <;> simp [h, statusMap]
  · rw [hmain]; rfl
  · intro hnil
    rw [hmain]
    simp only at hnil
    simp only [hnil, if_true, String.append_empty]
    rfl

/-! ## `ValueMap.GetString` -/

/-- C8: `GetString` returns the text of the stored value when the id is present
and of OctetString type, and the empty string when the id is absent or present
with another type; it has no failure outcome, and on a store as the library
delivers it always returns. When the version attribute is absent the report line
shows an empty pair of parentheses directly after the model name. -/
theorem GetString_decision (v : ValueMap) (id : String) :
    (v.get id = none → v.GetString id = .ret "") ∧
    (∀ val, v.get id = some val → val.Typ ≠ gosnmp.OctetString → v.GetString id = .ret "") ∧
    (∀ val b, v.get id = some val → val.Typ = gosnmp.OctetString → val.Value = .bytes b →
      v.GetString id = .ret b) ∧
    (StoreWellTyped v → ∃ s, v.GetString id = .ret s) ∧
    (∀ (serviceName flagHost : String) (c : Checked) (model label : String),
      v.get OIDVersion = none →
      v.GetString OIDModelName = .ret model → index statusMap c.status = .ret label →
      main.report serviceName flagHost v c =
        .ret (fmtInt c.status ++ " " ++ serviceName ++ " - " ++ label ++ " - Synology NAS "
          ++ model ++ " () on " ++ flagHost ++ " is "
          ++ (if c.status = 0 then "healthy" else "unhealthy") ++ " ("
          ++ toString c.countDisks ++ " disks, " ++ toString c.countRaids ++ " raids)"
          ++ (if c.errMsgs = [] then "" else ": " ++ ", ".intercalate c.errMsgs) ++ "\n")) := by
  refine ⟨?_, ?_, ?_, GetString_returns v id, ?_⟩
  · intro h
    simp [ValueMap.GetString, h]
  · intro val h ht
    simp [ValueMap.GetString, h, ht]
  · intro val b h ht hb
    simp [ValueMap.GetString, h, ht, hb]
  · intro serviceName flagHost c model label hget hm hl
    have hvs : v.GetString OIDVersion = .ret "" := by
      simp [ValueMap.GetString, hget]
    rw [report_eq serviceName flagHost v c model "" label hm hvs hl]
    have hpar : ∀ s : String, s ++ " (" ++ "" ++ ") on " = s ++ " () on " := by
      intro s
      rw [String.append_empty, String.append_assoc]
      rfl
    rw [hpar]


/-! ## Transport failures -/

theorem index_statusMap_two : index statusMap 2 = .ret "CRIT" := by decide

/-- The failure line with the text between the service name and the host in one
piece. -/
theorem failure_line (serviceName what flagHost middle : String) (err : GoError)
    (hmiddle : middle = " - " ++ "CRIT" ++ " - " ++ what ++ " '") :
    main.failure serviceName what flagHost err =
      .ret ("2 " ++ serviceName ++ middle ++ flagHost ++ "': " ++ fmtError err ++ "\n") := by
  unfold main.failure
  rw [index_statusMap_two, hmiddle]
  simp only [bind_ret, pure_eq_ret, String.append_assoc]

/-- With the DNS flag set `main` is `resolveDNS` followed by the failure line. -/
theorem main_dns (build : Build) (flags : Flags) (env : Env)
    (hv : flags.flagVersion = false) (hd : flags.flagDNS ≠ "") :
    main build flags env =
      match resolveDNS env.Exchange flags.flagDNS flags.flagHost with
      | .panic => .panic
      | .ret (_, err) =>
        main.failure flags.serviceName "Error connecting via SNMP to" flags.flagHost err := by
  unfold main
  simp [hv, hd]

/-- C9 (as amended): when the transport fails at any stage, host resolution
(the exchange fails or has no answer), the SNMP connect, the Get of the system
OIDs, the disk walk or the raid walk, `main` prints exactly one line
`2 <serviceName> - CRIT - <what> '<host>': <error>`: severity code 2, label
CRIT, and one message that describes the failure and names the target host. The
line is fixed by the failing step alone: it carries no disk or raid count and
nothing of the attributes retrieved before the failure, so no validator
contributes to it. -/
theorem transport_failure_line (build : Build) (flags : Flags) (env : Env)
    (hv : flags.flagVersion = false) :
    (flags.flagDNS ≠ "" → ∀ err,
      env.Exchange (flags.flagHost ++ ".") flags.flagDNS = .error err →
      main build flags env =
        .ret ("2 " ++ flags.serviceName ++ " - CRIT - Error connecting via SNMP to '"
          ++ flags.flagHost ++ "': "
          ++ ("Can't resolve '" ++ flags.flagHost ++ "' on " ++ flags.flagDNS ++ ": " ++ err)
          ++ "\n")) ∧
    (flags.flagDNS ≠ "" →
      env.Exchange (flags.flagHost ++ ".") flags.flagDNS = .ok [] →
      main build flags env =
        .ret ("2 " ++ flags.serviceName ++ " - CRIT - Error connecting via SNMP to '"
          ++ flags.flagHost ++ "': "
          ++ ("Can't resolve '" ++ flags.flagHost ++ "' on " ++ flags.flagDNS ++ ": No results")
          ++ "\n")) ∧
    (flags.flagDNS = "" → ∀ err, env.Connect flags.session = some err →
      main build flags env =
        .ret ("2 " ++ flags.serviceName ++ " - CRIT - Error connecting via SNMP to '"
          ++ flags.flagHost ++ "': " ++ err ++ "\n")) ∧
    (flags.flagDNS = "" → env.Connect flags.session = none → ∀ err,
      env.Get flags.session [OIDSystemStatus, OIDPowerStatus, OIDModelName, OIDVersion]
        = .error err →
      main build flags env =
        .ret ("2 " ++ flags.serviceName ++ " - CRIT - Error reading System-OIDs via SNMP from '"
          ++ flags.flagHost ++ "': " ++ err ++ "\n")) ∧
    (flags.flagDNS = "" → env.Connect flags.session = none → ∀ result err,
      env.Get flags.session [OIDSystemStatus, OIDPowerStatus, OIDModelName, OIDVersion]
        = .ok result →
      env.WalkAll flags.session OIDDiskStatuses = .error err →
      main build flags env =
        .ret ("2 " ++ flags.serviceName ++ " - CRIT - Error reading Disk-OIDs via SNMP from '"
          ++ flags.flagHost ++ "': " ++ err ++ "\n")) ∧
    (flags.flagDNS = "" → env.Connect flags.session = none → ∀ result disks err,
      env.Get flags.session [OIDSystemStatus, OIDPowerStatus, OIDModelName, OIDVersion]
        = .ok result →
      env.WalkAll flags.session OIDDiskStatuses = .ok disks →
      env.WalkAll flags.session OIDRaidStatuses = .error err →
      main build flags env =
        .ret ("2 " ++ flags.serviceName ++ " - CRIT - Error reading Raid-OIDs via SNMP from '"
          ++ flags.flagHost ++ "': " ++ err ++ "\n")) := by
  refine ⟨?_, ?_, ?_, ?_, ?_, ?_⟩
  · intro hd err hex
    rw [main_dns build flags env hv hd]
    simp only [resolveDNS, hex]
    rw [failure_line _ _ _ " - CRIT - Error connecting via SNMP to '" _ (by decide)]
    rfl
  · intro hd hex
    rw [main_dns build flags env hv hd]
    simp only [resolveDNS, hex]
    rw [failure_line _ _ _ " - CRIT - Error connecting via SNMP to '" _ (by decide)]
    rfl
  · intro hd err hc
    unfold main
    simp only [hv, hd, hc]
    rw [failure_line _ _ _ " - CRIT - Error connecting via SNMP to '" _ (by decide)]
    simp [fmtError]
  · intro hd hc err hg
    unfold main
    simp only [hv, hd, hc, hg]
    rw [failure_line _ _ _ " - CRIT - Error reading System-OIDs via SNMP from '" _ (by decide)]
    simp [fmtError]
  · intro hd hc result err hg hwd
    unfold main
    simp only [hv, hd, hc, hg, hwd]
    rw [failure_line _ _ _ " - CRIT - Error reading Disk-OIDs via SNMP from '" _ (by decide)]
    simp [fmtError]
  · intro hd hc result disks err hg hwd hwr
    unfold main
    simp only [hv, hd, hc, hg, hwd, hwr]
    rw [failure_line _ _ _ " - CRIT - Error reading Raid-OIDs via SNMP from '" _ (by decide)]
    simp [fmtError]

/-! ## The alternate name server -/

/-- C10 (as amended): in every run with the version flag unset and the DNS flag
non-empty in which `resolveDNS` returns, `main` prints the line
`2 <serviceName> - CRIT - Error connecting via SNMP to '<host>': <err>` with the
error `resolveDNS` returned, also when the resolution succeeded and the error is
nil; the resolved address does not occur in it. Whatever such a run prints is
this line, so no report of an evaluation is printed, and the output does not
depend on the SNMP collaborators: no connection is made and no attribute is
retrieved or validated. -/
theorem dns_flag_short_circuits (build : Build) (flags : Flags) (env : Env)
    (hv : flags.flagVersion = false) (hd : flags.flagDNS ≠ "") :
    (∀ addr err, resolveDNS env.Exchange flags.flagDNS flags.flagHost = .ret (addr, err) →
      main build flags env =
        .ret ("2 " ++ flags.serviceName ++ " - CRIT - Error connecting via SNMP to '"
          ++ flags.flagHost ++ "': " ++ fmtError err ++ "\n")) ∧
    (∀ addr rest, env.Exchange (flags.flagHost ++ ".") flags.flagDNS = .ok (.A addr :: rest) →
      resolveDNS env.Exchange flags.flagDNS flags.flagHost = .ret (addr, none) ∧
      main build flags env =
        .ret ("2 " ++ flags.serviceName ++ " - CRIT - Error connecting via SNMP to '"
          ++ flags.flagHost ++ "': " ++ "%!s(<nil>)" ++ "\n")) ∧
    (∀ out, main build flags env = .ret out →
      ∃ addr err, resolveDNS env.Exchange flags.flagDNS flags.flagHost = .ret (addr, err) ∧
        out = "2 " ++ flags.serviceName ++ " - CRIT - Error connecting via SNMP to '"
          ++ flags.flagHost ++ "': " ++ fmtError err ++ "\n") ∧
    (∀ env2 : Env, env2.Exchange = env.Exchange →
      main build flags env2 = main build flags env) := by
  have hline : ∀ err : GoError,
      main.failure flags.serviceName "Error connecting via SNMP to" flags.flagHost err =
        .ret ("2 " ++ flags.serviceName ++ " - CRIT - Error connecting via SNMP to '"
          ++ flags.flagHost ++ "': " ++ fmtError err ++ "\n") :=
    fun err => failure_line _ _ _ " - CRIT - Error connecting via SNMP to '" err (by decide)
  refine ⟨?_, ?_, ?_, ?_⟩
  · intro addr err hr
    rw [main_dns build flags env hv hd, hr]
    exact hline err
  · intro addr rest hex
    have hr : resolveDNS env.Exchange flags.flagDNS flags.flagHost = .ret (addr, none) := by
      simp [resolveDNS, hex]
    refine ⟨hr, ?_⟩
    rw [main_dns build flags env hv hd, hr]
    exact hline none
  · intro out hout
    rw [main_dns build flags env hv hd] at hout
    cases hr : resolveDNS env.Exchange flags.flagDNS flags.flagHost with
    | panic => rw [hr] at hout; simp at hout
    | ret p =>
      obtain ⟨addr, err⟩ := p
      rw [hr] at hout
      simp only [hline, Run.ret.injEq] at hout
      exact ⟨addr, err, rfl, hout.symm⟩
  · intro env2 hex
    rw [main_dns build flags env hv hd, main_dns build flags env2 hv hd, hex]

/-! ## Concrete runs -/

/-- Witness of C2: three disk bays of which one is the sentinel, enumerated in
reverse order, give count 2 and success. -/
theorem CheckMultipleInt_all_valid_witness :
    exBays.reverse.Perm exBays ∧
    (∀ e ∈ exBays, HasPrefix e.1 OIDDiskStatuses = true →
      e.2.Typ = gosnmp.NoSuchObject ∨ ValidInt [1, 2, 3] e.2) ∧
    ValueMap.CheckMultipleInt exTypeString exBays.reverse "Disk Status" OIDDiskStatuses
      [1, 2, 3] = .ret (2, none) :=
  ⟨List.reverse_perm exBays, by decide,
    (CheckMultipleInt_all_valid exTypeString exBays exBays.reverse "Disk Status"
      OIDDiskStatuses [1, 2, 3] (List.reverse_perm exBays) (by decide)).1.trans (by decide)⟩

/-- Counterexample to C3 as stated: the disk check fails at the second disk
after validating one disk (the message carries index 1), yet the count returned
with the failure is 0 and not 1, and the report shows 0 disks. -/
theorem failure_count_not_partial :
    ValueMap.CheckMultipleInt exTypeString exDisks "Disk Status" OIDDiskStatuses [1, 2, 3] =
      .ret (0, some "Invalid value for 'Disk Status 1': received 5, expected one of [1 2 3]") ∧
    (exDisks.take 1).countP (counted OIDDiskStatuses) = 1 ∧
    main exBuild exFlags (exEnv 1 1 exVersion [1, 5] [1]) =
      .ret ("2 SynologyNAS_1.2.3.4 - CRIT - Synology NAS DS918+ (DSM 6.2) on 1.2.3.4 is "
        ++ "unhealthy (0 disks, 1 raids): "
        ++ "Invalid value for 'Disk Status 1': received 5, expected one of [1 2 3]\n") := by
  refine ⟨by decide, by decide, by decide⟩

/-- Witness of C3 as amended: with one valid disk followed by a crashed one the
checks return, the disk check fails, and the disk count of the report is 0. -/
theorem failure_count_is_zero_witness :
    StoreWellTyped (exStore 1 1 exVersion [1, 5] [1]) ∧
    ∃ c msg, main.checks exTypeString (exStore 1 1 exVersion [1, 5] [1])
        (exStore 1 1 exVersion [1, 5] [1]) (exStore 1 1 exVersion [1, 5] [1]).reverse = .ret c ∧
      ValueMap.CheckMultipleInt exTypeString (exStore 1 1 exVersion [1, 5] [1]) "Disk Status"
        OIDDiskStatuses [1, 2, 3] = .ret (c.countDisks, some msg) ∧
      c.countDisks = 0 := by
  refine ⟨by decide, ?_⟩
  obtain ⟨_, c, kd, eD, kr, eR, hD, _, hc, hkd, _, hzD, _, _⟩ :=
    failure_count_is_zero exTypeString (exStore 1 1 exVersion [1, 5] [1])
      (exStore 1 1 exVersion [1, 5] [1]) (exStore 1 1 exVersion [1, 5] [1]).reverse
      (by decide) (List.Perm.refl _) (List.reverse_perm _)
  have hev : ValueMap.CheckMultipleInt exTypeString (exStore 1 1 exVersion [1, 5] [1])
      "Disk Status" OIDDiskStatuses [1, 2, 3] =
      .ret (0, some "Invalid value for 'Disk Status 1': received 5, expected one of [1 2 3]") := by
    decide
  rw [hev] at hD
  simp only [Run.ret.injEq, Prod.mk.injEq] at hD
  obtain ⟨hk, he⟩ := hD
  refine ⟨c, "Invalid value for 'Disk Status 1': received 5, expected one of [1 2 3]", hc,
    ?_, ?_⟩
  · rw [hev, hkd, ← hk]
  · exact hzD (by rw [← he]; simp)

/-- Witness of C4: after one valid disk the crashed disk fails the check with
index 1, whatever follows it, even an entry whose examination would panic. -/
theorem CheckMultipleInt_fails_iff_witness :
    (∀ e ∈ exDisks, HasPrefix e.1 OIDDiskStatuses = true → e.2.Typ = gosnmp.Integer →
      ∃ n, e.2.Value = .int n) ∧
    (∃ k msg, ValueMap.CheckMultipleInt exTypeString exDisks "Disk Status" OIDDiskStatuses
      [1, 2, 3] = .ret (k, some msg)) ∧
    ∃ k, ValueMap.CheckMultipleInt exTypeString (exDisks ++ [exIllTyped]) "Disk Status"
      OIDDiskStatuses [1, 2, 3] =
        .ret (k, some "Invalid value for 'Disk Status 1': received 5, expected one of [1 2 3]") := by
  have h := CheckMultipleInt_fails_iff exTypeString exDisks "Disk Status" OIDDiskStatuses
    [1, 2, 3] (by decide)
  refine ⟨by decide, h.1.2 (by decide), ?_⟩
  exact (h.2 (exDisks.take 1) (OIDDiskStatuses ++ ".1", pduInt (OIDDiskStatuses ++ ".1") 5) []
    rfl (by decide) (by decide) (by decide)).2 5 rfl rfl [exIllTyped]

/-- Witness of C5: a healthy device has severity 0; here the power status is 2
and the severity is 2 with label CRIT. -/
theorem severity_ok_iff_all_succeed_witness :
    StoreWellTyped (exStore 1 2 exVersion [1, 1] [1]) ∧
    ∃ c, main.checks exTypeString (exStore 1 2 exVersion [1, 1] [1])
        (exStore 1 2 exVersion [1, 1] [1]) (exStore 1 2 exVersion [1, 1] [1]).reverse = .ret c ∧
      c.status = 2 ∧ index statusMap c.status = .ret "CRIT" := by
  refine ⟨by decide, ?_⟩
  obtain ⟨c, e1, e2, e3, e4, kd, kr, _, h2, _, _, hc, hiff, hne, _, _, _, hidx⟩ :=
    severity_ok_iff_all_succeed exTypeString (exStore 1 2 exVersion [1, 1] [1])
      (exStore 1 2 exVersion [1, 1] [1]) (exStore 1 2 exVersion [1, 1] [1]).reverse
      (by decide) (List.Perm.refl _) (List.reverse_perm _)
  have hev : ValueMap.CheckInt exTypeString (exStore 1 2 exVersion [1, 1] [1]) "Power Status"
      OIDPowerStatus [1] =
      .ret (some "Invalid value for 'Power Status': received 2, expected one of [1]") := by
    decide
  rw [hev] at h2
  simp only [Run.ret.injEq] at h2
  have hs : c.status ≠ 0 := fun h0 => by
    have := (hiff.1 h0).2.1
    rw [← h2] at this
    simp at this
  have h2s : c.status = 2 := hne hs
  refine ⟨c, hc, h2s, ?_⟩
  rw [hidx, h2s]
  rfl

/-- Witness of C6: with a failed system status and a crashed disk the message
list is the system message followed by the disk message. -/
theorem messages_are_failures_in_order_witness :
    StoreWellTyped (exStore 2 1 exVersion [1, 5] [1]) ∧
    ∃ c, main.checks exTypeString (exStore 2 1 exVersion [1, 5] [1])
        (exStore 2 1 exVersion [1, 5] [1]) (exStore 2 1 exVersion [1, 5] [1]).reverse = .ret c ∧
      c.errMsgs = ["Invalid value for 'System Status': received 2, expected one of [1]",
        "Invalid value for 'Disk Status 1': received 5, expected one of [1 2 3]"] ∧
      c.errMsgs.length = 2 := by
  refine ⟨by decide, ?_⟩
  obtain ⟨c, e1, e2, e3, e4, kd, kr, h1, h2, h3, h4, hc, hmsgs, _, _⟩ :=
    messages_are_failures_in_order exTypeString (exStore 2 1 exVersion [1, 5] [1])
      (exStore 2 1 exVersion [1, 5] [1]) (exStore 2 1 exVersion [1, 5] [1]).reverse
      (by decide) (List.Perm.refl _) (List.reverse_perm _)
  have hev : main.checks exTypeString (exStore 2 1 exVersion [1, 5] [1])
      (exStore 2 1 exVersion [1, 5] [1]) (exStore 2 1 exVersion [1, 5] [1]).reverse =
      .ret { status := 2,
             errMsgs := ["Invalid value for 'System Status': received 2, expected one of [1]",
               "Invalid value for 'Disk Status 1': received 5, expected one of [1 2 3]"],
             countDisks := 0, countRaids := 1 } := by decide
  rw [hev] at hc
  simp only [Run.ret.injEq] at hc
  refine ⟨c, by rw [hev, hc], by rw [← hc], by rw [← hc]; rfl⟩

/-- Witness of C8 (Scenario D): without a version attribute the line of a
healthy device shows `DS918+ ()`. -/
theorem GetString_decision_witness :
    (exStore 1 1 [] [1, 1] [1]).get OIDVersion = none ∧
    (exStore 1 1 [] [1, 1] [1]).GetString OIDVersion = .ret "" ∧
    (exStore 1 1 [] [1, 1] [1]).GetString OIDModelName = .ret "DS918+" ∧
    (exStore 1 1 [] [1, 1] [1]).GetString OIDSystemStatus = .ret "" ∧
    main exBuild exFlags (exEnv 1 1 [] [1, 1] [1]) =
      .ret ("0 SynologyNAS_1.2.3.4 - OK - Synology NAS DS918+ () on 1.2.3.4 is healthy "
        ++ "(2 disks, 1 raids)\n") := by
  have hver : (exStore 1 1 [] [1, 1] [1]).get OIDVersion = none := by decide
  have hmod : (exStore 1 1 [] [1, 1] [1]).get OIDModelName = some (pduStr OIDModelName "DS918+") := by
    decide
  have hsys : (exStore 1 1 [] [1, 1] [1]).get OIDSystemStatus = some (pduInt OIDSystemStatus 1) := by
    decide
  have hne : (pduInt OIDSystemStatus 1).Typ ≠ gosnmp.OctetString := by decide
  exact ⟨hver,
    (GetString_decision (exStore 1 1 [] [1, 1] [1]) OIDVersion).1 hver,
    (GetString_decision (exStore 1 1 [] [1, 1] [1]) OIDModelName).2.2.1
      (pduStr OIDModelName "DS918+") "DS918+" hmod rfl rfl,
    (GetString_decision (exStore 1 1 [] [1, 1] [1]) OIDSystemStatus).2.1
      (pduInt OIDSystemStatus 1) hsys hne,
    by decide⟩

/-- Witness of C7 (Scenarios A and B): the exact lines of a healthy device and
of a device whose system status is 2. -/
theorem report_line_format_witness :
    (∀ p ∈ ([pduInt OIDSystemStatus 1, pduInt OIDPowerStatus 1, pduStr OIDModelName "DS918+"]
        ++ exVersion) ++ exFamily OIDDiskStatuses [1, 1] ++ exFamily OIDRaidStatuses [1],
      WellTyped p) ∧
    (∃ (c : Checked) (model version label : String),
      main exBuild exFlags (exEnv 1 1 exVersion [1, 1] [1]) =
        .ret (reportLine c.status "SynologyNAS_1.2.3.4" label model version "1.2.3.4"
          c.countDisks c.countRaids c.errMsgs ++ "\n")) ∧
    main exBuild exFlags (exEnv 1 1 exVersion [1, 1] [1]) =
      .ret ("0 SynologyNAS_1.2.3.4 - OK - Synology NAS DS918+ (DSM 6.2) on 1.2.3.4 is healthy "
        ++ "(2 disks, 1 raids)\n") ∧
    main exBuild exFlags (exEnv 2 1 exVersion [1, 1] [1]) =
      .ret ("2 SynologyNAS_1.2.3.4 - CRIT - Synology NAS DS918+ (DSM 6.2) on 1.2.3.4 is "
        ++ "unhealthy (2 disks, 1 raids): "
        ++ "Invalid value for 'System Status': received 2, expected one of [1]\n") := by
  refine ⟨by decide, ?_, by decide, by decide⟩
  obtain ⟨c, model, version, label, _, _, _, _, _, hmain, _⟩ :=
    report_line_format exBuild exFlags (exEnv 1 1 exVersion [1, 1] [1])
      ([pduInt OIDSystemStatus 1, pduInt OIDPowerStatus 1, pduStr OIDModelName "DS918+"]
        ++ exVersion)
      (exFamily OIDDiskStatuses [1, 1]) (exFamily OIDRaidStatuses [1])
      rfl rfl rfl rfl rfl rfl (by decide) (fun m => List.Perm.refl m)
      (fun m => List.reverse_perm m)
  exact ⟨c, model, version, label, hmain⟩

/-- Counterexample to C9 as stated: when the SNMP connection is refused the one
line `main` prints carries severity 2, label CRIT and the failure message, but
no disk count and no raid count, so it reports no count of zero. -/
theorem transport_failure_has_no_counts :
    main exBuild exFlags exEnvRefused =
      .ret "2 SynologyNAS_1.2.3.4 - CRIT - Error connecting via SNMP to '1.2.3.4': connection refused\n" ∧
    ¬ (" disks".data <:+:
      "2 SynologyNAS_1.2.3.4 - CRIT - Error connecting via SNMP to '1.2.3.4': connection refused\n".data) ∧
    ¬ (" raids".data <:+:
      "2 SynologyNAS_1.2.3.4 - CRIT - Error connecting via SNMP to '1.2.3.4': connection refused\n".data) ∧
    (" disks".data <:+:
      (reportLine 2 "SynologyNAS_1.2.3.4" "CRIT" "" "" "1.2.3.4" 0 0
        ["Error connecting via SNMP to '1.2.3.4': connection refused"]).data) := by
  refine ⟨by decide, by decide, by decide, by decide⟩

/-- Witness of C9 as amended: the refused connection gives the failure line,
whatever the device would have answered. -/
theorem transport_failure_line_witness :
    exFlags.flagVersion = false ∧ exFlags.flagDNS = "" ∧
    exEnvRefused.Connect exFlags.session = some "connection refused" ∧
    main exBuild exFlags exEnvRefused =
      .ret ("2 " ++ exFlags.serviceName ++ " - CRIT - Error connecting via SNMP to '"
        ++ exFlags.flagHost ++ "': " ++ "connection refused" ++ "\n") :=
  ⟨rfl, rfl, rfl,
    (transport_failure_line exBuild exFlags exEnvRefused rfl).2.2.1 rfl "connection refused" rfl⟩

/-- Counterexample to C10 as stated: with the DNS flag set, a run whose first
answer record is not an A record panics at the type assertion of line 136 and
prints nothing, and a run with the version flag prints the version text; neither
prints the failure line. -/
theorem dns_flag_run_without_failure_line :
    exFlagsDNS.flagDNS ≠ "" ∧
    main exBuild exFlagsDNS (exEnvResolved [.other, .A "192.0.2.7"]) = .panic ∧
    main exBuild { exFlagsDNS with flagVersion := true } (exEnvResolved [.A "192.0.2.7"]) =
      .ret ("sshmon-check-snmp-synology-nas 1.0.0 (Build 2020-01-01)\n\n"
        ++ "https://github.com/indece-official/sshmon-check-snmp-synology-nas\n\n"
        ++ "Copyright 2020 by indece UG (haftungsbeschränkt)\n") := by
  refine ⟨by decide, by decide, by decide⟩

/-- Witness of C10 as amended: the name server resolves the host, and the run
still prints the failure line, with the nil error. -/
theorem dns_flag_short_circuits_witness :
    exFlagsDNS.flagVersion = false ∧ exFlagsDNS.flagDNS ≠ "" ∧
    resolveDNS (exEnvResolved [.A "192.0.2.7"]).Exchange exFlagsDNS.flagDNS exFlagsDNS.flagHost =
      .ret ("192.0.2.7", none) ∧
    main exBuild exFlagsDNS (exEnvResolved [.A "192.0.2.7"]) =
      .ret ("2 SynologyNAS_nas.example.org - CRIT - Error connecting via SNMP to "
        ++ "'nas.example.org': %!s(<nil>)\n") := by
  have h := (dns_flag_short_circuits exBuild exFlagsDNS (exEnvResolved [.A "192.0.2.7"])
    rfl (by decide)).2.1 "192.0.2.7" [] rfl
  exact ⟨rfl, by decide, h.1, h.2.trans (by decide)⟩
end SynologyCheck
